import Mathlib

/-!
Shallow embedding of the dashboard/visualization engine of the
chatbot-data-analyst repository (`claude_service.py`, plus the dashboard
endpoint of `main.py`).

Modelling conventions:
* A pandas DataFrame is a `Dataset`: a list of named `Column`s, each with a
  declared `Dtype` and a list of cell `Value`s (numbers, strings, nulls).
  The dtype universe covers the dtypes reachable in this program: `int64`
  and `float64` (numeric CSV columns), `object` (text columns), `bool`
  (True/False CSV columns), and `category` (handled explicitly by
  `select_dtypes` in the source).
* Machine floats are modelled as rationals (`ℚ`).  Operations pandas
  performs with NaN-skipping semantics (`sum`, `mean`, `min`, `max`,
  `std`, `nunique`, `value_counts`, `dropna`) are modelled by first
  discarding null cells; reductions of an empty column, which produce NaN
  in pandas, are given the junk value `0`.
* `pd.to_datetime` parsing, ISO date formatting (`strftime`), month
  truncation (`dt.to_period('M')` rendered with `astype(str)`), memory
  usage, and floating square roots are external pandas behaviours; they
  are collected in the `Pandas` oracle structure and all results are
  proved for every oracle.
* Plotly figures are serialized blobs the engine never inspects; the
  `data` field of a chart is modelled as a `Plot` term recording which
  plot was built from which columns and series.
* Python `str.lower` is modelled for ASCII (`lowerChar`); Python `round`
  (banker's rounding at 2 decimals) is `pyRound2`.
-/

/-- A scalar cell of a DataFrame column: a number, a string, or a null
(NaN/None). -/
inductive Value where
  | num (q : ℚ)
  | str (s : String)
  | null
deriving DecidableEq, Repr

/-- `True` exactly on null cells (pandas NaN/None). -/
def Value.isNull : Value → Bool
  | .null => true
  | _ => false

/-- Python `str(val)` on a cell, for option labels (numeric rendering is
approximated by `toString`; the engine never branches on these labels). -/
def Value.strOf : Value → String
  | .num q => toString q
  | .str s => s
  | .null => "None"

/-- The pandas dtypes reachable in this program: `int64`/`float64` from
numeric CSV columns, `object` for text, `bool` for True/False CSV columns,
and `category` (explicitly listed in the source's `select_dtypes`). -/
inductive Dtype where
  | int64
  | float64
  | object
  | category
  | bool
deriving DecidableEq, Repr

/-- The pandas string name of a dtype (`df.dtypes.astype(str)`). -/
def Dtype.pyName : Dtype → String
  | .int64 => "int64"
  | .float64 => "float64"
  | .object => "object"
  | .category => "category"
  | .bool => "bool"

/-- One DataFrame column: its name, declared dtype, and cells. -/
structure Column where
  name : String
  dtype : Dtype
  values : List Value
deriving DecidableEq, Repr

/-- A DataFrame: an ordered list of columns.  The pandas invariant that
column names are unique (`pd.read_csv` mangles duplicates) is carried as a
`Nodup` hypothesis where a proof needs it. -/
structure Dataset where
  cols : List Column
deriving DecidableEq, Repr

/-- `len(df)`: the row count, read off the first column (all columns of a
DataFrame have equal length). -/
def Dataset.nrows (d : Dataset) : Nat :=
  ((d.cols.head?).map (fun c => c.values.length)).getD 0

/-- `df[col]`: column lookup by name.  All call sites in the source pass
names obtained from the same DataFrame, so the default is never reached. -/
def Dataset.getCol (d : Dataset) (name : String) : Column :=
  ((d.cols.find? (fun c => c.name == name)).getD ⟨name, .object, []⟩)

/-- External pandas behaviours the engine calls but never inspects:
date parsing (`pd.to_datetime` on one non-null cell: a timestamp on
success), ISO formatting (`strftime('%Y-%m-%d')`), month truncation
(`dt.to_period('M')` rendered as a string), `df.memory_usage`, and the
floating square root inside `Series.std`. -/
structure Pandas where
  parseDate : Value → Option Int
  isoDate : Int → String
  monthOf : Int → String
  memUsage : Dataset → String
  sqrtq : ℚ → ℚ

/-- `pd.to_datetime(v, errors='coerce')` on a single cell: nulls always
become NaT; non-null cells parse according to the oracle. -/
def coerceDate (o : Pandas) (v : Value) : Option Int :=
  if v.isNull then none else o.parseDate v

/-- The non-null cells of a column (`series.dropna()`). -/
def Column.nonNull (c : Column) : List Value :=
  c.values.filter (fun v => !v.isNull)

/-- The numeric cells of a column; pandas reductions (`sum`, `mean`,
`min`, `max`, `std`) skip NaN, so they act on this list. -/
def Column.numVals (c : Column) : List ℚ :=
  c.values.filterMap (fun v => match v with | .num q => some q | _ => none)

/-- `series.sum()` (NaN-skipping; `0` for an all-null column, as in
pandas). -/
def Column.sumVals (c : Column) : ℚ := c.numVals.sum

/-- `series.mean()` (NaN-skipping; pandas gives NaN for an empty column,
modelled as the junk value `0` via division by zero). -/
def Column.meanVals (c : Column) : ℚ := c.sumVals / (c.numVals.length : ℚ)

/-- First-occurrence deduplication, i.e. `series.unique()` on the non-null
cells. -/
def dedupFirstAux (seen : List Value) : List Value → List Value
  | [] => []
  | v :: rest =>
    if v ∈ seen then dedupFirstAux seen rest
    else v :: dedupFirstAux (v :: seen) rest

/-- `series.dropna().unique().tolist()`: distinct non-null cells in order
of first appearance. -/
def Column.distinctNonNull (c : Column) : List Value :=
  dedupFirstAux [] c.nonNull

/-- `series.nunique()`: the number of distinct non-null cells. -/
def Column.nuniqueVals (c : Column) : Nat := c.distinctNonNull.length

/-- `series.min()` over the numeric cells (junk `0` when empty, where
pandas gives NaN). -/
def listMinQ : List ℚ → ℚ
  | [] => 0
  | x :: xs => xs.foldl min x

/-- `series.max()` over the numeric cells (junk `0` when empty). -/
def listMaxQ : List ℚ → ℚ
  | [] => 0
  | x :: xs => xs.foldl max x

/-- ASCII lower-casing of one character (Python `str.lower`, restricted to
ASCII, which covers the engine's keyword matching). -/
def lowerChar (c : Char) : Char :=
  if 'A' ≤ c && c ≤ 'Z' then Char.ofNat (c.toNat + 32) else c

/-- ASCII `s.lower()` as a character list. -/
def lowerList (s : String) : List Char := s.toList.map lowerChar

/-- Whether `w` occurs at the head of `s`. -/
def leadEq : List Char → List Char → Bool
  | [], _ => true
  | _ :: _, [] => false
  | a :: as, b :: bs => a == b && leadEq as bs

/-- Python's `w in s` substring test on character lists. -/
def isSubstrIn (w s : List Char) : Bool :=
  match s with
  | [] => w.isEmpty
  | _ :: rest => leadEq w s || isSubstrIn w rest

/-- `any(word in name.lower() for word in ['price','cost','revenue','sales'])`:
the currency-format trigger of `_generate_kpis`. -/
def currencyName (name : String) : Bool :=
  ["price", "cost", "revenue", "sales"].any
    (fun w => isSubstrIn w.toList (lowerList name))

/-- Python `round(x, 2)`: round half to even at two decimal places
(idealized over ℚ; Python rounds the binary double). -/
def pyRound2 (q : ℚ) : ℚ :=
  let x := q * 100
  let f : ℤ := Rat.floor x
  let r : ℚ := x - (f : ℚ)
  let n : ℤ :=
    if r < 1 / 2 then f
    else if 1 / 2 < r then f + 1
    else if f % 2 = 0 then f else f + 1
  (n : ℚ) / 100

/-! ## Column classification (`create_full_dashboard`, lines 67–81)

`numeric_cols = df.select_dtypes(include=['int64','float64'])`,
`categorical_cols = df.select_dtypes(include=['object','category'])`, then
a loop over all columns probes each `object` column: parse the first 100
non-null cells with `pd.to_datetime(..., errors='raise')`; on success the
column is appended to `date_cols` and removed from `categorical_cols`.
`pd.to_datetime` on an empty selection raises nothing, so an empty sample
counts as success. -/

/-- `df.select_dtypes(include=['int64','float64']).columns.tolist()`. -/
def numericColsOf (d : Dataset) : List String :=
  (d.cols.filter (fun c => c.dtype == .int64 || c.dtype == .float64)).map (·.name)

/-- `df.select_dtypes(include=['object','category']).columns.tolist()`,
before the datetime probe removes parsed columns. -/
def rawCategoricalCols (d : Dataset) : List String :=
  (d.cols.filter (fun c => c.dtype == .object || c.dtype == .category)).map (·.name)

/-- The datetime probe of one column:
`pd.to_datetime(df[col].dropna().head(100), errors='raise')` succeeds iff
every sampled cell parses — vacuously true for an empty sample. -/
def dateProbe (o : Pandas) (c : Column) : Bool :=
  (c.nonNull.take 100).all (fun v => (coerceDate o v).isSome)

/-- The date-detection loop: walks the columns in order, and for each
`object` column whose probe succeeds, appends its name to the date list
and removes it from the categorical list (`list.remove` removes the first
occurrence, which `List.erase` matches; the guarding `in` test in the
source only avoids Python's `ValueError` and does not change the result). -/
def dateScan (o : Pandas) : List Column → List String → List String × List String
  | [], cat => ([], cat)
  | c :: rest, cat =>
    if c.dtype == .object && dateProbe o c then
      (c.name :: (dateScan o rest (cat.erase c.name)).1,
        (dateScan o rest (cat.erase c.name)).2)
    else dateScan o rest cat

/-- `date_cols` after the detection loop. -/
def dateColsOf (o : Pandas) (d : Dataset) : List String :=
  (dateScan o d.cols (rawCategoricalCols d)).1

/-- `categorical_cols` after the detection loop. -/
def categoricalColsOf (o : Pandas) (d : Dataset) : List String :=
  (dateScan o d.cols (rawCategoricalCols d)).2

/-! ## KPI generation (`_generate_kpis`) -/

/-- One KPI entry, with the exact fields of the source's dicts. -/
structure KPI where
  id : String
  title : String
  value : Value
  format : String
  icon : String
  color : String
deriving DecidableEq, Repr

/-- The unconditional first KPI: `Total Records` = `int(len(df))`. -/
def totalRecordsKPI (d : Dataset) : KPI :=
  ⟨"total_records", "Total Records", .num (d.nrows : ℚ), "number", "database", "blue"⟩

/-- The `currency`/`number` format choice for the first numeric column. -/
def kpiFormat (name : String) : String :=
  if currencyName name then "currency" else "number"

/-- `_generate_kpis`: always the record count; if a numeric column exists,
its sum and its mean rounded to two decimals (currency format iff the
column name contains a currency word); if additionally a categorical
column exists, the distinct count of the first categorical column. -/
def generateKpis (d : Dataset) (ncols ccols _dcols : List String) : List KPI :=
  let k1 := totalRecordsKPI d
  match ncols with
  | [] => [k1]
  | main :: _ =>
    let c := d.getCol main
    let k2 : KPI := ⟨"main_metric", "Total " ++ main, .num c.sumVals,
      kpiFormat main, "trending-up", "green"⟩
    let k3 : KPI := ⟨"avg_metric", "Average " ++ main, .num (pyRound2 c.meanVals),
      kpiFormat main, "bar-chart", "purple"⟩
    match ccols with
    | [] => [k1, k2, k3]
    | mc :: _ =>
      [k1, k2, k3,
        ⟨"unique_categories", "Unique " ++ mc, .num ((d.getCol mc).nuniqueVals : ℚ),
          "number", "tag", "orange"⟩]

/-! ## Chart generation (`_generate_charts`)

Six chart candidates are attempted in a fixed order inside a single
`try/except`.  A candidate whose column-type precondition fails is
skipped; if the code of an attempted candidate raises, the `except`
catches it, the loop is abandoned, and the charts accumulated so far are
returned.  Which plotly call raises on which data is outside the engine;
it is abstracted as a `throws` oracle indexed by the candidate id. -/

/-- `series.value_counts()` restricted to what the engine consumes:
distinct non-null cells with their occurrence counts, ordered by count
descending (pandas's tie order among equal counts is internal and is
abstracted by a stable insertion sort over the first-appearance order). -/
def insertByCount (p : Value × Nat) : List (Value × Nat) → List (Value × Nat)
  | [] => [p]
  | q :: qs => if q.2 < p.2 then p :: q :: qs else q :: insertByCount p qs

/-- `df[col].value_counts()` as a (value, count) list, count-descending. -/
def valueCounts (c : Column) : List (Value × Nat) :=
  (c.distinctNonNull.map (fun v => (v, c.nonNull.count v))).foldr insertByCount []

/-- The serialized plot payload of a chart (`fig.to_json()`), modelled as
a description of what was plotted; the engine treats it as opaque. -/
inductive Plot where
  | histogram (col : String) (nbins : Option Nat)
  | barTop (col : String) (counts : List (Value × Nat))
  | heatmap (cols : List String)
  | scatter (x y : String) (color : Option String)
  | line (dateCol numCol : String) (monthly : List (String × ℚ))
  | box (col : String)
deriving DecidableEq, Repr

/-- One generated chart dict: id, title, chart type, serialized plot, and
grid position. -/
structure Chart where
  id : String
  title : String
  ctype : String
  data : Plot
  position : Nat × Nat
deriving DecidableEq, Repr

/-- The paired (date cell, numeric cell) rows used by the time-series
chart: the first date column zipped against the first numeric column. -/
def rowPairs (d : Dataset) (dateCol numCol : String) : List (Value × Value) :=
  (d.getCol dateCol).values.zip (d.getCol numCol).values

/-- `df_temp.dropna(subset=[date_col])` after
`pd.to_datetime(..., errors='coerce')`: the rows whose date cell parses,
as (timestamp, numeric value) pairs; a NaN numeric cell contributes `0`
to the later group sum (pandas `sum` skips NaN). -/
def survivors (o : Pandas) (d : Dataset) (dateCol numCol : String) : List (Int × ℚ) :=
  (rowPairs d dateCol numCol).filterMap (fun p =>
    (coerceDate o p.1).map (fun ts =>
      (ts, match p.2 with | .num q => q | _ => 0)))

/-- Ascending insertion of a month key (groupby sorts its keys; for the
ISO-like month strings of `to_period('M').astype(str)` the string order is
the chronological order). -/
def insertStr (s : String) : List String → List String
  | [] => [s]
  | t :: ts => if s < t then s :: t :: ts else t :: insertStr s ts

/-- First-occurrence deduplication of strings. -/
def dedupStrAux (seen : List String) : List String → List String
  | [] => []
  | s :: rest =>
    if s ∈ seen then dedupStrAux seen rest
    else s :: dedupStrAux (s :: seen) rest

/-- `groupby(date.dt.to_period('M'))[numeric].sum()` with the month keys
rendered as strings: per distinct month (ascending), the sum of the
numeric cells of that month's surviving rows. -/
def monthlySum (o : Pandas) (pairs : List (Int × ℚ)) : List (String × ℚ) :=
  let months := ((dedupStrAux [] (pairs.map (fun p => o.monthOf p.1))).foldr insertStr [])
  months.map (fun m =>
    (m, ((pairs.filter (fun p => o.monthOf p.1 == m)).map (·.2)).sum))

/-- One straight-line chart candidate of `_generate_charts`: its dict id,
whether its surrounding `if` fires (`applies`), whether it actually
appends a chart (`emits` — it differs from `applies` only for the
time-series chart, whose body additionally requires a surviving row), and
the chart it appends. -/
structure Candidate where
  cid : String
  applies : Bool
  emits : Bool
  chart : Chart
deriving DecidableEq, Repr

/-- The six chart candidates of `_generate_charts`, in source order, with
their preconditions evaluated on the classified column lists.  The chart
fields of a non-applying candidate are junk (built from the `""` default
head) and are never emitted. -/
def candidateList (o : Pandas) (d : Dataset) (ncols ccols dcols : List String) :
    List Candidate :=
  let n0 := ncols.headD ""
  let n1 := (ncols.drop 1).headD ""
  let c0 := ccols.headD ""
  let d0 := dcols.headD ""
  [ ⟨"distribution_chart", !ncols.isEmpty, !ncols.isEmpty,
      ⟨"distribution_chart", "Distribution of " ++ n0, "histogram",
        .histogram n0 (some 20), (1, 1)⟩⟩,
    ⟨"top_categories", !ccols.isEmpty, !ccols.isEmpty,
      ⟨"top_categories", "Top 10 " ++ c0, "bar",
        .barTop c0 ((valueCounts (d.getCol c0)).take 10), (1, 2)⟩⟩,
    ⟨"correlation_matrix", decide (2 ≤ ncols.length), decide (2 ≤ ncols.length),
      ⟨"correlation_matrix", "Correlation Matrix", "heatmap",
        .heatmap (ncols.take 5), (2, 1)⟩⟩,
    ⟨"scatter_plot", decide (2 ≤ ncols.length), decide (2 ≤ ncols.length),
      ⟨"scatter_plot", n0 ++ " vs " ++ n1, "scatter",
        .scatter n0 n1 ccols.head?, (2, 2)⟩⟩,
    ⟨"time_series", !dcols.isEmpty && !ncols.isEmpty,
      (!dcols.isEmpty && !ncols.isEmpty) && !(survivors o d d0 n0).isEmpty,
      ⟨"time_series", n0 ++ " Over Time", "line",
        .line d0 n0 (monthlySum o (survivors o d d0 n0)), (3, 1)⟩⟩,
    ⟨"box_plot", !ncols.isEmpty, !ncols.isEmpty,
      ⟨"box_plot", "Box Plot - " ++ n0, "box", .box n0, (3, 2)⟩⟩ ]

/-- The control flow of `_generate_charts`'s single `try/except`: walk the
candidates in order; skip a candidate whose `if` does not fire; if an
attempted candidate raises, return the charts accumulated so far (the
`except` swallows the error and the function returns); otherwise append
its chart (when the body emits one) and continue. -/
def runCharts (throws : String → Bool) : List Candidate → List Chart
  | [] => []
  | c :: rest =>
    if c.applies then
      if throws c.cid then []
      else (if c.emits then [c.chart] else []) ++ runCharts throws rest
    else runCharts throws rest

/-- `_generate_charts`. -/
def generateCharts (o : Pandas) (throws : String → Bool) (d : Dataset)
    (ncols ccols dcols : List String) : List Chart :=
  runCharts throws (candidateList o d ncols ccols dcols)

/-! ## Filter generation (`_generate_filters`) -/

/-- A generated filter widget, one constructor per `type` tag the source
emits, with that type's fields. -/
inductive FilterWidget where
  | multiselect (id column label : String) (options : List (Value × String))
      (dflt : List Value)
  | range (id column label : String) (lo hi : ℚ) (dflt : ℚ × ℚ) (step : ℚ)
  | daterange (id column label : String) (lo hi : String) (dflt : String × String)
deriving DecidableEq, Repr

/-- Total ASCII-lexicographic comparison used to model Python `sorted` on
the distinct values of one column (object columns hold strings; the
cross-constructor cases are unreachable for them). -/
def charListLe : List Char → List Char → Bool
  | [], _ => true
  | _ :: _, [] => false
  | a :: as, b :: bs =>
    if a.toNat < b.toNat then true
    else if b.toNat < a.toNat then false
    else charListLe as bs

/-- Value comparison backing `sorted(unique_values)`. -/
def vleB : Value → Value → Bool
  | .num a, .num b => a ≤ b
  | .str a, .str b => charListLe a.toList b.toList
  | .null, _ => true
  | _, .null => false
  | .num _, .str _ => true
  | .str _, .num _ => false

/-- Insertion step of the sort behind `sorted(unique_values)`. -/
def insertVal (v : Value) : List Value → List Value
  | [] => [v]
  | w :: ws => if vleB v w then v :: w :: ws else w :: insertVal v ws

/-- Python `sorted` on a value list (insertion sort; on the distinct
values it is applied to, any comparison sort agrees). -/
def sortVals (l : List Value) : List Value := l.foldr insertVal []

/-- `_generate_filters`: up to 3 multiselect filters (first 3 categorical
columns, each only when its distinct non-null count is ≤ 50, options the
sorted distinct values), then up to 2 numeric range filters, then up to 1
date-range filter (skipped silently when no row's date parses). -/
def generateFilters (o : Pandas) (d : Dataset) (ncols ccols dcols : List String) :
    List FilterWidget :=
  ((ccols.take 3).filterMap (fun col =>
      if (d.getCol col).distinctNonNull.length ≤ 50 then
        some (.multiselect ("filter_" ++ col) col ("Filter by " ++ col)
          ((sortVals (d.getCol col).distinctNonNull).map (fun v => (v, v.strOf))) [])
      else none))
  ++ ((ncols.take 2).map (fun col =>
      .range ("range_" ++ col) col (col ++ " Range")
        (listMinQ (d.getCol col).numVals) (listMaxQ (d.getCol col).numVals)
        (listMinQ (d.getCol col).numVals, listMaxQ (d.getCol col).numVals)
        ((listMaxQ (d.getCol col).numVals - listMinQ (d.getCol col).numVals) / 100)))
  ++ ((dcols.take 1).filterMap (fun col =>
      match (d.getCol col).values.filterMap (coerceDate o) with
      | [] => none
      | t :: ts =>
        let lo := o.isoDate (ts.foldl min t)
        let hi := o.isoDate (ts.foldl max t)
        some (.daterange ("date_" ++ col) col ("Date Range - " ++ col) lo hi (lo, hi))))

/-! ## Data summary (`_generate_data_summary`)

The summary is a nested dict; it is modelled as an association list of
`SVal`s.  The two `data_quality` percentages divide by
`len(df) * len(df.columns)` and by `len(df)`; when `len(df)
* len(df.columns) == 0` Python raises `ZeroDivisionError`, which is the
failure of this sub-step that the dashboard-level `except` observes, so
the function returns an `Except`.  The `%.1f` string rendering of the
percentages and of numeric values is float formatting and is left as the
underlying rationals. -/

/-- A node of the nested summary dict: a number, a string, a raw cell
value, Python `None`, or a nested dict. -/
inductive SVal where
  | n (x : ℚ)
  | s (t : String)
  | v (x : Value)
  | none_
  | obj (fields : List (String × SVal))

/-- Total null-cell count: `df.isnull().sum().sum()`. -/
def totalMissing (d : Dataset) : Nat :=
  (d.cols.map (fun c => (c.values.filter (·.isNull)).length)).sum

/-- The rows of the DataFrame (cells read column-wise at each index). -/
def rowsOf (d : Dataset) : List (List Value) :=
  (List.range d.nrows).map (fun i => d.cols.map (fun c => c.values.getD i .null))

/-- `df.duplicated().sum()`: the number of rows equal to an earlier row. -/
def dupCountAux : List (List Value) → List (List Value) → Nat
  | _, [] => 0
  | seen, r :: rest =>
    (if r ∈ seen then 1 else 0) + dupCountAux (r :: seen) rest

/-- Duplicate-row count of the DataFrame. -/
def dupRowCount (d : Dataset) : Nat := dupCountAux [] (rowsOf d)

/-- `l.sum / l.length` (series mean over already-extracted numerics). -/
def listMeanQ (l : List ℚ) : ℚ := l.sum / (l.length : ℚ)

/-- Ascending insertion sort on ℚ (for the median). -/
def insertQ (x : ℚ) : List ℚ → List ℚ
  | [] => [x]
  | y :: ys => if x ≤ y then x :: y :: ys else y :: insertQ x ys

/-- `series.median()` over the numeric cells (junk `0` when empty). -/
def listMedianQ (l : List ℚ) : ℚ :=
  let s := l.foldr insertQ []
  if s.length = 0 then 0
  else if s.length % 2 = 1 then s.getD (s.length / 2) 0
  else (s.getD (s.length / 2 - 1) 0 + s.getD (s.length / 2) 0) / 2

/-- `series.std()`: sample standard deviation (ddof=1), with the square
root taken by the oracle; pandas yields NaN for fewer than two values,
modelled as junk `0`. -/
def sampleStd (o : Pandas) (l : List ℚ) : ℚ :=
  if l.length ≤ 1 then 0
  else o.sqrtq (((l.map (fun x => (x - listMeanQ l) ^ 2)).sum) / ((l.length : ℚ) - 1))

/-- `_generate_data_summary`.  The data-quality percentages divide by
`len(df) * len(df.columns)` and `len(df)`; these operands are numpy
integer scalars, whose division by zero yields inf/nan with a runtime
warning rather than an exception, matching ℚ's junk `x / 0 = 0`
convention here. -/
def generateDataSummary (o : Pandas) (d : Dataset) (ncols ccols dcols : List String) :
    List (String × SVal) :=
  let rows := d.nrows
  let cols := d.cols.length
  [("overview", .obj
          [("total_rows", .n (rows : ℚ)),
           ("total_columns", .n (cols : ℚ)),
           ("missing_values", .n (totalMissing d : ℚ)),
           ("duplicate_rows", .n (dupRowCount d : ℚ)),
           ("memory_usage", .s (o.memUsage d))]),
       ("column_types", .obj
          [("numeric", .n (ncols.length : ℚ)),
           ("categorical", .n (ccols.length : ℚ)),
           ("datetime", .n (dcols.length : ℚ))]),
       ("data_quality", .obj
          [("completeness",
             .n ((((rows * cols : ℚ) - (totalMissing d : ℚ)) / (rows * cols : ℚ)) * 100)),
           ("uniqueness",
             .n ((((rows : ℚ) - (dupRowCount d : ℚ)) / (rows : ℚ)) * 100))])]
      ++ (if ncols.isEmpty then [] else
          [("numeric_stats", .obj ((ncols.take 5).map (fun col =>
              let l := (d.getCol col).numVals
              (col, SVal.obj
                [("mean", .n (pyRound2 (listMeanQ l))),
                 ("median", .n (pyRound2 (listMedianQ l))),
                 ("std", .n (pyRound2 (sampleStd o l))),
                 ("min", .n (pyRound2 (listMinQ l))),
                 ("max", .n (pyRound2 (listMaxQ l)))]))))])
      ++ (if ccols.isEmpty then [] else
          [("categorical_stats", .obj ((ccols.take 3).map (fun col =>
              let c := d.getCol col
              let top := (valueCounts c).take 5
              (col, SVal.obj
                [("unique_count", .n (c.nuniqueVals : ℚ)),
                 ("top_values", .obj (top.map (fun p => (p.1.strOf, SVal.n (p.2 : ℚ))))),
                 ("most_frequent",
                   match top.head? with
                   | some p => .v p.1
                   | none => .none_)]))))])

/-! ## Dashboard assembly (`create_full_dashboard` and the
`/dashboard/{session_id}` endpoint of `main.py`)

The returned dict is modelled as an association list from key to a typed
field value, so that the presence and absence of keys is statable.  The
top-level `except` catches any exception a sub-step raises; the modelled
sub-steps are total, and which pandas/plotly/runtime call raises (e.g. a
`TypeError` from `sorted` on a mixed-dtype object column, or numpy error
state promoting the zero divisions to exceptions) is environmental, so —
like the per-chart `throws` oracle — the raised sub-step exception, if
any, is an explicit `Option String` input: `none` runs the `try` body to
its `return`, `some e` reaches the `except e` handler, which returns the
five-key error payload with no `"metadata"` entry. -/

/-- The value stored under one key of the dashboard payload. -/
inductive FieldVal where
  | kpis (l : List KPI)
  | charts (l : List Chart)
  | filters (l : List FilterWidget)
  | summary (s : List (String × SVal))
  | metadata (totalRows totalColumns numericColumns categoricalColumns dateColumns : Nat)
  | err (e : String)

/-- `create_full_dashboard`: the success payload carries kpis, charts,
filters, summary and metadata; when a sub-step raises (`exc = some e`)
the `except` returns the error payload with empty collections, an empty
summary and the error string — and no metadata key. -/
def createFullDashboard (o : Pandas) (throws : String → Bool)
    (exc : Option String) (d : Dataset) : List (String × FieldVal) :=
  let ncols := numericColsOf d
  let ccols := categoricalColsOf o d
  let dcols := dateColsOf o d
  match exc with
  | none =>
      [("kpis", .kpis (generateKpis d ncols ccols dcols)),
       ("charts", .charts (generateCharts o throws d ncols ccols dcols)),
       ("filters", .filters (generateFilters o d ncols ccols dcols)),
       ("summary", .summary (generateDataSummary o d ncols ccols dcols)),
       ("metadata", .metadata d.nrows d.cols.length ncols.length ccols.length dcols.length)]
  | some e =>
      [("kpis", .kpis []),
       ("charts", .charts []),
       ("filters", .filters []),
       ("summary", .summary []),
       ("error", .err e)]

/-- The candidates `create_full_dashboard` attempts in dashboard mode
(those whose precondition holds), by id — the determinism claim compares
this across runs. -/
def attemptedCandidates (o : Pandas) (d : Dataset) : List String :=
  ((candidateList o d (numericColsOf d) (categoricalColsOf o d) (dateColsOf o d)).filter
    (·.applies)).map (·.cid)

/-- The `main.py` dashboard endpoint reads `dashboard_data["metadata"]`;
a missing key is a `KeyError`, modelled as `none`. -/
def indexMetadata (p : List (String × FieldVal)) : Option FieldVal :=
  p.lookup "metadata"

/-! ## Chat-path visualization (`analyze_data`, `_generate_visualization`,
`_create_dashboard`, `_create_chart`, `_create_table`)

`analyze_data`'s single `try` wraps both the remote narrative call and the
visualization generation; the remote call and its response-text extraction
are modelled as an `Except String String` input. -/

/-- `df.select_dtypes(include='object').columns` (the chat path does not
include `category` here, unlike `create_full_dashboard`). -/
def objectDtypeCols (d : Dataset) : List String :=
  (d.cols.filter (fun c => c.dtype == .object)).map (·.name)

/-- One chart of the chat-path mini dashboard. -/
structure MiniChart where
  ctype : String
  data : Plot
  title : String
deriving DecidableEq, Repr

/-- The data payload `_generate_visualization` can produce. -/
inductive VizData where
  | dashboard (totalRows totalColumns numericColumns categoricalColumns : Nat)
      (charts : List MiniChart)
  | single (plot : Plot)
  | table (records : List (List (String × Value))) (columns : List String)
      (totalRows : Nat) (dtypes : List (String × String))
deriving DecidableEq, Repr

/-- `_create_dashboard`: summary stats plus a histogram of the first
numeric column and a top-10 bar of the first object column, when present
(this path uses `select_dtypes('number')`, i.e. the numeric dtypes, and
`select_dtypes('object')`). -/
def createDashboardViz (d : Dataset) : Option VizData × Option String :=
  let ncols := numericColsOf d
  let ccols := objectDtypeCols d
  let hcharts :=
    (match ncols with
     | [] => []
     | n0 :: _ => [⟨"histogram", .histogram n0 none, "Distribution de " ++ n0⟩])
    ++ (match ccols with
        | [] => []
        | c0 :: _ =>
          [(⟨"bar", .barTop c0 ((valueCounts (d.getCol c0)).take 10),
             "Top 10 - " ++ c0⟩ : MiniChart)])
  (some (.dashboard d.nrows d.cols.length ncols.length ccols.length hcharts),
    some "dashboard")

/-- `_create_chart`: keyword-driven single chart, first match wins;
explicit `(None, None)` when no rule applies. -/
def createChartViz (d : Dataset) (q : String) : Option VizData × Option String :=
  let ncols := numericColsOf d
  let ccols := objectDtypeCols d
  if isSubstrIn "correlation".toList (lowerList q) && decide (2 ≤ ncols.length) then
    (some (.single (.heatmap ncols)), some "single_chart")
  else if isSubstrIn "distribution".toList (lowerList q) && !ncols.isEmpty then
    (some (.single (.histogram (ncols.headD "") none)), some "single_chart")
  else if 2 ≤ ncols.length then
    (some (.single (.scatter (ncols.headD "") ((ncols.drop 1).headD "") none)),
      some "single_chart")
  else
    match ccols with
    | c0 :: _ =>
      (some (.single (.barTop c0 ((valueCounts (d.getCol c0)).take 10))),
        some "single_chart")
    | [] => (none, none)

/-- `_create_table`: the first 100 rows as records, the column names, the
row count and the dtype names. -/
def createTableViz (d : Dataset) : Option VizData × Option String :=
  (some (.table
      (((rowsOf d).take 100).map (fun r =>
        (d.cols.map (·.name)).zip r))
      (d.cols.map (·.name)) d.nrows
      (d.cols.map (fun c => (c.name, c.dtype.pyName)))),
    some "table")

/-- `_generate_visualization`: dispatch on the request type (the Claude
response text is passed but unused). -/
def generateVisualization (q : String) (d : Dataset) (rtype : String)
    (_resp : String) : Option VizData × Option String :=
  if rtype == "dashboard" then createDashboardViz d
  else if rtype == "chart" then createChartViz d q
  else if rtype == "table" then createTableViz d
  else (none, none)

/-- The response record of `analyze_data`. -/
structure AnalyzeResult where
  text : String
  visualization : Option VizData
  chart_config : Option String
deriving DecidableEq, Repr

/-- `analyze_data`: on a successful narrative call the response text and
the generated visualization; when the remote call (or its response
handling) raises, the `except` substitutes the French error string and
`None` for both visualization fields — the visualization pipeline is not
run. -/
def analyzeData (llm : Except String String) (q : String) (d : Dataset)
    (rtype : String) : AnalyzeResult :=
  match llm with
  | .ok txt =>
    let v := generateVisualization q d rtype txt
    ⟨txt, v.1, v.2⟩
  | .error e =>
    ⟨"Désolé, une erreur s'est produite lors de l'analyse : " ++ e, none, none⟩

/-! ## Concrete fixtures for witnesses and counterexamples -/

/-- An oracle on which no cell parses as a date. -/
def noParse : Pandas := ⟨fun _ => none, fun _ => "", fun _ => "", fun _ => "", fun _ => 0⟩

/-- An oracle on which every non-null cell parses as a date. -/
def allParse : Pandas :=
  ⟨fun _ => some 0, fun _ => "1970-01-01", fun _ => "1970-01", fun _ => "", fun _ => 0⟩

/-- A DataFrame with a single `bool` column, as `pd.read_csv` produces for
a True/False CSV column (bool cells behave as 0/1 numerics; the
classifier never reads them). -/
def dBool : Dataset := ⟨[⟨"flag", .bool, [.num 1, .num 0]⟩]⟩

/-- A two-column DataFrame: one numeric, one text. -/
def dMix : Dataset :=
  ⟨[⟨"n", .int64, [.num 1, .num 2]⟩, ⟨"g", .object, [.str "a", .str "b"]⟩]⟩

/-- A DataFrame whose only column is text and entirely null. -/
def dAllNull : Dataset := ⟨[⟨"note", .object, [.null, .null]⟩]⟩

/-- A DataFrame with a parsable text column and a `category` column. -/
def dCat10 : Dataset :=
  ⟨[⟨"d", .object, [.str "2024-01-01"]⟩, ⟨"k", .category, [.str "2024-01-02"]⟩]⟩

/-- A DataFrame whose first numeric column name contains `price`. -/
def dPrice : Dataset :=
  ⟨[⟨"price", .float64, [.num 10, .num 20]⟩, ⟨"quantity", .int64, [.num 1, .num 2]⟩]⟩

/-! ## Classifier lemmas -/

/-- The date list produced by the detection loop is the object columns
whose probe succeeds, in column order (it does not depend on the
categorical accumulator). -/
theorem dateScan_fst (o : Pandas) (cols : List Column) (cat : List String) :
    (dateScan o cols cat).1 =
      (cols.filter (fun c => c.dtype == .object && dateProbe o c)).map Column.name := by
  induction cols generalizing cat with
  | nil => rfl
  | cons c rest ih =>
    by_cases h : (c.dtype == Dtype.object && dateProbe o c) = true
    · simp [dateScan, h, List.filter_cons, ih]
    · simp [dateScan, h, List.filter_cons, ih]

/-- Membership in the categorical list after the loop: a name survives iff
it was in the initial categorical list and is not a detected date column
(for a duplicate-free initial list, as produced by `select_dtypes` on a
DataFrame with unique column names). -/
theorem mem_dateScan_snd (o : Pandas) (cols : List Column) (cat : List String)
    (hnd : cat.Nodup) (x : String) :
    x ∈ (dateScan o cols cat).2 ↔ x ∈ cat ∧ x ∉ (dateScan o cols cat).1 := by
  induction cols generalizing cat with
  | nil => simp [dateScan]
  | cons c rest ih =>
    by_cases h : (c.dtype == Dtype.object && dateProbe o c) = true
    · have hnd' : (cat.erase c.name).Nodup := hnd.erase _
      simp only [dateScan, h, if_true]
      rw [ih _ hnd', List.Nodup.mem_erase_iff hnd, List.mem_cons]
      tauto
    · have h2 : dateScan o (c :: rest) cat = dateScan o rest cat := by
        simp [dateScan, h]
      rw [h2]
      exact ih cat hnd

/-- Name-level characterization of `numericColsOf`. -/
theorem mem_numericColsOf (d : Dataset) (x : String) :
    x ∈ numericColsOf d ↔
      ∃ c ∈ d.cols, c.name = x ∧ (c.dtype = .int64 ∨ c.dtype = .float64) := by
  simp only [numericColsOf, List.mem_map, List.mem_filter, Bool.or_eq_true, beq_iff_eq]
  aesop

/-- Name-level characterization of `rawCategoricalCols`. -/
theorem mem_rawCategoricalCols (d : Dataset) (x : String) :
    x ∈ rawCategoricalCols d ↔
      ∃ c ∈ d.cols, c.name = x ∧ (c.dtype = .object ∨ c.dtype = .category) := by
  simp only [rawCategoricalCols, List.mem_map, List.mem_filter, Bool.or_eq_true, beq_iff_eq]
  aesop

/-- Name-level characterization of `dateColsOf`. -/
theorem mem_dateColsOf (o : Pandas) (d : Dataset) (x : String) :
    x ∈ dateColsOf o d ↔
      ∃ c ∈ d.cols, c.name = x ∧ c.dtype = .object ∧ dateProbe o c = true := by
  simp only [dateColsOf, dateScan_fst, List.mem_map, List.mem_filter,
    Bool.and_eq_true, beq_iff_eq]
  aesop

/-- The initial categorical list inherits `Nodup` from the column names. -/
theorem rawCategoricalCols_nodup (d : Dataset)
    (h : (d.cols.map Column.name).Nodup) : (rawCategoricalCols d).Nodup :=
  ((List.filter_sublist d.cols).map Column.name).nodup h

/-- Name-level characterization of `categoricalColsOf` (for unique column
names). -/
theorem mem_categoricalColsOf (o : Pandas) (d : Dataset)
    (h : (d.cols.map Column.name).Nodup) (x : String) :
    x ∈ categoricalColsOf o d ↔
      x ∈ rawCategoricalCols d ∧ x ∉ dateColsOf o d := by
  exact mem_dateScan_snd o d.cols (rawCategoricalCols d) (rawCategoricalCols_nodup d h) x

/-! ## C1 -/

/-- C1, counterexample: the classification of `create_full_dashboard` does
not cover every column.  On a DataFrame with one `bool` column (produced
by `pd.read_csv` from a True/False column), the column's name receives no
role: it is in none of the numeric, categorical and datetime lists, so
their union is not the full column set. -/
theorem classifier_partition_counterexample :
    "flag" ∈ dBool.cols.map Column.name ∧
    "flag" ∉ numericColsOf dBool ∧
    "flag" ∉ categoricalColsOf noParse dBool ∧
    "flag" ∉ dateColsOf noParse dBool := by decide

/-- C1, amended: for a DataFrame with unique column names, the three lists
produced by the column-classification step of `create_full_dashboard` are
pairwise disjoint, and their union, as a set, equals the set of columns
whose dtype is `int64`, `float64`, `object` or `category`; a column of any
other dtype (such as `bool`) receives no role. -/
theorem classifier_partition_amended (o : Pandas) (d : Dataset)
    (h : (d.cols.map Column.name).Nodup) (x : String) :
    (¬ (x ∈ numericColsOf d ∧ x ∈ categoricalColsOf o d)) ∧
    (¬ (x ∈ numericColsOf d ∧ x ∈ dateColsOf o d)) ∧
    (¬ (x ∈ categoricalColsOf o d ∧ x ∈ dateColsOf o d)) ∧
    ((x ∈ numericColsOf d ∨ x ∈ categoricalColsOf o d ∨ x ∈ dateColsOf o d) ↔
      ∃ c ∈ d.cols, c.name = x ∧
        (c.dtype = .int64 ∨ c.dtype = .float64 ∨ c.dtype = .object ∨ c.dtype = .category)) := by
  have inj := List.inj_on_of_nodup_map h
  refine ⟨?_, ?_, ?_, ?_⟩
  · rintro ⟨hn, hc⟩
    rcases (mem_numericColsOf d x).1 hn with ⟨c, hm, hname, hd⟩
    rcases (mem_rawCategoricalCols d x).1 ((mem_categoricalColsOf o d h x).1 hc).1 with
      ⟨c', hm', hname', hd'⟩
    have he : c = c' := inj hm hm' (hname.trans hname'.symm)
    subst he
    rcases hd with h1 | h1 <;> rcases hd' with h2 | h2 <;> simp [h1] at h2
  · rintro ⟨hn, hdt⟩
    rcases (mem_numericColsOf d x).1 hn with ⟨c, hm, hname, hd⟩
    rcases (mem_dateColsOf o d x).1 hdt with ⟨c', hm', hname', hobj', _⟩
    have he : c = c' := inj hm hm' (hname.trans hname'.symm)
    subst he
    rcases hd with h1 | h1 <;> simp [h1] at hobj'
  · rintro ⟨hc, hdt⟩
    exact ((mem_categoricalColsOf o d h x).1 hc).2 hdt
  · constructor
    · rintro (hn | hc | hdt)
      · rcases (mem_numericColsOf d x).1 hn with ⟨c, hm, hname, hd⟩
        exact ⟨c, hm, hname, by tauto⟩
      · rcases (mem_rawCategoricalCols d x).1 ((mem_categoricalColsOf o d h x).1 hc).1 with
          ⟨c, hm, hname, hd⟩
        exact ⟨c, hm, hname, by tauto⟩
      · rcases (mem_dateColsOf o d x).1 hdt with ⟨c, hm, hname, hobj, _⟩
        exact ⟨c, hm, hname, by tauto⟩
    · rintro ⟨c, hm, hname, hd⟩
      rcases hd with h1 | h1 | h1 | h1
      · exact Or.inl ((mem_numericColsOf d x).2 ⟨c, hm, hname, Or.inl h1⟩)
      · exact Or.inl ((mem_numericColsOf d x).2 ⟨c, hm, hname, Or.inr h1⟩)
      · by_cases hp : dateProbe o c = true
        · exact Or.inr (Or.inr ((mem_dateColsOf o d x).2 ⟨c, hm, hname, h1, hp⟩))
        · refine Or.inr (Or.inl ((mem_categoricalColsOf o d h x).2
            ⟨(mem_rawCategoricalCols d x).2 ⟨c, hm, hname, Or.inl h1⟩, fun hdt => ?_⟩))
          rcases (mem_dateColsOf o d x).1 hdt with ⟨c', hm', hname', _, hp'⟩
          have he : c' = c := inj hm' hm (hname'.trans hname.symm)
          rw [he] at hp'
          exact hp hp'
      · refine Or.inr (Or.inl ((mem_categoricalColsOf o d h x).2
          ⟨(mem_rawCategoricalCols d x).2 ⟨c, hm, hname, Or.inr h1⟩, fun hdt => ?_⟩))
        rcases (mem_dateColsOf o d x).1 hdt with ⟨c', hm', hname', hobj', _⟩
        have he : c' = c := inj hm' hm (hname'.trans hname.symm)
        rw [he, h1] at hobj'
        exact Dtype.noConfusion hobj'

/-- C1, witness: the amended partition statement evaluated on a concrete
two-column DataFrame. -/
theorem classifier_partition_amended_witness :
    ((dMix.cols.map Column.name).Nodup) ∧
    (¬ ("n" ∈ numericColsOf dMix ∧ "n" ∈ categoricalColsOf noParse dMix)) ∧
    (("g" ∈ numericColsOf dMix ∨ "g" ∈ categoricalColsOf noParse dMix ∨
        "g" ∈ dateColsOf noParse dMix) ↔
      ∃ c ∈ dMix.cols, c.name = "g" ∧
        (c.dtype = .int64 ∨ c.dtype = .float64 ∨ c.dtype = .object ∨ c.dtype = .category)) :=
  ⟨by decide,
    (classifier_partition_amended noParse dMix (by decide) "n").1,
    (classifier_partition_amended noParse dMix (by decide) "g").2.2.2⟩

/-! ## C2 -/

/-- C2, counterexample: a text column whose non-null sample is empty is
classified Datetime, not Categorical — even on an oracle on which no cell
parses.  `pd.to_datetime` on the empty sample raises nothing, so the probe
succeeds vacuously. -/
theorem emptySample_counterexample :
    "note" ∈ dateColsOf noParse dAllNull ∧
    "note" ∉ categoricalColsOf noParse dAllNull := by decide

/-- C2, amended: for every text column whose non-null sample taken for the
datetime probe is empty, the probe vacuously succeeds and the classifier
classifies the column Datetime, removing it from the categorical list
(for a DataFrame with unique column names). -/
theorem emptySample_classified_datetime (o : Pandas) (d : Dataset) (c : Column)
    (h : (d.cols.map Column.name).Nodup)
    (hmem : c ∈ d.cols) (hdt : c.dtype = .object)
    (hempty : c.nonNull = []) :
    c.name ∈ dateColsOf o d ∧ c.name ∉ categoricalColsOf o d := by
  have hprobe : dateProbe o c = true := by simp [dateProbe, hempty]
  have hd : c.name ∈ dateColsOf o d :=
    (mem_dateColsOf o d c.name).2 ⟨c, hmem, rfl, hdt, hprobe⟩
  exact ⟨hd, fun hc => ((mem_categoricalColsOf o d h c.name).1 hc).2 hd⟩

/-- C2, witness: the amended statement on the all-null text column. -/
theorem emptySample_classified_datetime_witness :
    ((dAllNull.cols.map Column.name).Nodup ∧
      (⟨"note", .object, [.null, .null]⟩ : Column) ∈ dAllNull.cols ∧
      (Column.nonNull ⟨"note", .object, [.null, .null]⟩) = []) ∧
    ("note" ∈ dateColsOf noParse dAllNull ∧
      "note" ∉ categoricalColsOf noParse dAllNull) :=
  ⟨⟨by decide, by decide, by decide⟩,
    emptySample_classified_datetime noParse dAllNull ⟨"note", .object, [.null, .null]⟩
      (by decide) (by decide) rfl (by decide)⟩

/-! ## C10 -/

/-- C10: only `object`-dtype columns are probed for dates, so every
datetime-classified name belongs to an `object` column, and a `category`
(or any non-`object`) column is never classified Datetime, whatever its
cells parse as. -/
theorem dateCols_only_object (o : Pandas) (d : Dataset)
    (h : (d.cols.map Column.name).Nodup) :
    (∀ x ∈ dateColsOf o d, ∃ c ∈ d.cols, c.name = x ∧ c.dtype = .object) ∧
    (∀ c ∈ d.cols, c.dtype = .category → c.name ∉ dateColsOf o d) := by
  constructor
  · intro x hx
    rcases (mem_dateColsOf o d x).1 hx with ⟨c, hm, hn, ho, _⟩
    exact ⟨c, hm, hn, ho⟩
  · intro c hm hcat hx
    rcases (mem_dateColsOf o d c.name).1 hx with ⟨c', hm', hn', ho', _⟩
    have he : c' = c := List.inj_on_of_nodup_map h hm' hm hn'
    rw [he, hcat] at ho'
    exact Dtype.noConfusion ho'

/-- C10, witness: on an oracle on which every cell parses, the object
column is classified Datetime and the category column still is not. -/
theorem dateCols_only_object_witness :
    ((dCat10.cols.map Column.name).Nodup ∧ "d" ∈ dateColsOf allParse dCat10) ∧
    ((∃ c ∈ dCat10.cols, c.name = "d" ∧ c.dtype = .object) ∧
      "k" ∉ dateColsOf allParse dCat10) :=
  ⟨⟨by decide, by decide⟩,
    ⟨(dateCols_only_object allParse dCat10 (by decide)).1 "d" (by decide),
      (dateCols_only_object allParse dCat10 (by decide)).2
        ⟨"k", .category, [.str "2024-01-02"]⟩ (by decide) rfl⟩⟩

/-! ## C3 -/

/-- C3, counterexample: on a failing narrative call, `analyze_data` does
not run the visualization pipeline.  For a `table` request the success
path always returns a table payload and the `table` config, but the
failure path returns `None` for both, so the visualization is not "the
same as on narrative success". -/
theorem analyze_error_counterexample :
    (analyzeData (Except.error "API down") "show the data" dMix "table").visualization
        = none ∧
    (analyzeData (Except.error "API down") "show the data" dMix "table").chart_config
        = none ∧
    (analyzeData (Except.ok "analysis") "show the data" dMix "table").visualization
        ≠ none ∧
    (analyzeData (Except.ok "analysis") "show the data" dMix "table").chart_config
        = some "table" := by
  refine ⟨rfl, rfl, ?_, rfl⟩
  decide

/-- C3, amended: when the narrative (LLM) call fails, `analyze_data`
returns the substitute French error string as its text and `None` for both
the visualization and the chart config — the single `try` wraps the
visualization generation too, so the visualization pipeline is skipped
rather than unaffected. -/
theorem analyze_error_payload (e q : String) (d : Dataset) (rtype : String) :
    analyzeData (Except.error e) q d rtype =
      ⟨"Désolé, une erreur s'est produite lors de l'analyse : " ++ e, none, none⟩ := rfl

/-! ## C4 -/

/-- In every candidate built by `candidateList`, emitting a chart implies
the candidate's `if` fired. -/
theorem candidateList_emits_applies (o : Pandas) (d : Dataset)
    (ncols ccols dcols : List String) :
    ∀ c ∈ candidateList o d ncols ccols dcols, c.emits = true → c.applies = true := by
  intro c hc
  simp only [candidateList, List.mem_cons, List.not_mem_nil, or_false] at hc
  rcases hc with rfl | rfl | rfl | rfl | rfl | rfl
  · exact id
  · exact id
  · exact id
  · exact id
  · intro h5
    simp only [Bool.and_eq_true] at h5 ⊢
    exact h5.1
  · exact id

/-- The control flow of the single `try/except` of `_generate_charts`: the
returned charts are exactly the charts of the emitting candidates that
precede the first candidate that is attempted and throws; everything from
that candidate on is lost. -/
theorem runCharts_eq (throws : String → Bool) (cs : List Candidate)
    (h : ∀ c ∈ cs, c.emits = true → c.applies = true) :
    runCharts throws cs =
      ((cs.takeWhile (fun c => !(c.applies && throws c.cid))).filter (·.emits)).map
        (·.chart) := by
  induction cs with
  | nil => rfl
  | cons c rest ih =>
    have hc := h c (List.mem_cons_self c rest)
    have hrest : ∀ x ∈ rest, x.emits = true → x.applies = true :=
      fun x hx => h x (List.mem_cons_of_mem _ hx)
    by_cases ha : c.applies = true
    · by_cases ht : throws c.cid = true
      · simp [runCharts, ha, ht, List.takeWhile_cons]
      · cases he : c.emits <;>
          simp [runCharts, ha, ht, he, List.takeWhile_cons, List.filter_cons, ih hrest]
    · have he : c.emits = false := by
        cases he' : c.emits
        · rfl
        · exact absurd (hc he') (by simp [ha])
      have ha' : c.applies = false := by
        cases ha'' : c.applies
        · rfl
        · exact absurd ha'' ha
      simp [runCharts, ha', he, List.takeWhile_cons, List.filter_cons, ih hrest]

/-- C4, amended: in dashboard mode a throwing chart candidate aborts the
whole generation loop — the result consists exactly of the charts of the
emitting candidates before the first attempted candidate that throws, so
every later candidate is skipped even when its precondition holds. -/
theorem charts_abort_on_throw (o : Pandas) (throws : String → Bool) (d : Dataset)
    (ncols ccols dcols : List String) :
    generateCharts o throws d ncols ccols dcols =
      (((candidateList o d ncols ccols dcols).takeWhile
          (fun c => !(c.applies && throws c.cid))).filter (·.emits)).map (·.chart) :=
  runCharts_eq throws _ (candidateList_emits_applies o d ncols ccols dcols)

/-- C4, counterexample: with one numeric and one text column, if the first
(histogram) candidate throws, the bar-chart candidate's precondition holds
but the dashboard contains no chart at all — it does not proceed with the
remaining candidates. -/
theorem charts_abort_counterexample :
    generateCharts noParse (fun cid => cid == "distribution_chart") dMix
        (numericColsOf dMix) (categoricalColsOf noParse dMix)
        (dateColsOf noParse dMix) = [] ∧
    (candidateList noParse dMix (numericColsOf dMix) (categoricalColsOf noParse dMix)
        (dateColsOf noParse dMix)).any
      (fun c => c.cid == "top_categories" && c.applies) = true := by
  exact ⟨rfl, by decide⟩

/-! ## C5 -/

/-- C5: for every dataset, `_generate_kpis` applied to the classified
column lists returns at least one KPI; the first is always the
`Total Records` row count with format `number`; and when the numeric list
is empty the result is exactly that one KPI, whatever the categorical and
datetime lists contain. -/
theorem kpis_head_total_records (o : Pandas) (d : Dataset) :
    generateKpis d (numericColsOf d) (categoricalColsOf o d) (dateColsOf o d) ≠ [] ∧
    (generateKpis d (numericColsOf d) (categoricalColsOf o d) (dateColsOf o d)).head? =
      some (totalRecordsKPI d) ∧
    (totalRecordsKPI d).title = "Total Records" ∧
    (totalRecordsKPI d).value = .num (d.nrows : ℚ) ∧
    (totalRecordsKPI d).format = "number" ∧
    (numericColsOf d = [] →
      (generateKpis d (numericColsOf d) (categoricalColsOf o d)
        (dateColsOf o d)).length = 1) := by
  rcases hn : numericColsOf d with _ | ⟨m, rest⟩
  · simp [generateKpis, totalRecordsKPI]
  · rcases hc : categoricalColsOf o d with _ | ⟨mc, crest⟩ <;>
      simp [generateKpis, totalRecordsKPI, hn, hc]

/-- C5, witness: on the all-null single-text-column DataFrame the numeric
list is empty and exactly one KPI is produced, with the Total Records
head. -/
theorem kpis_head_total_records_witness :
    (numericColsOf dAllNull = [] ∧
      (generateKpis dAllNull (numericColsOf dAllNull) (categoricalColsOf noParse dAllNull)
        (dateColsOf noParse dAllNull)).length = 1) ∧
    (generateKpis dAllNull (numericColsOf dAllNull) (categoricalColsOf noParse dAllNull)
      (dateColsOf noParse dAllNull)).head? = some (totalRecordsKPI dAllNull) :=
  ⟨⟨by decide, (kpis_head_total_records noParse dAllNull).2.2.2.2.2 (by decide)⟩,
    (kpis_head_total_records noParse dAllNull).2.1⟩

/-! ## C6 -/

/-- C6: when at least one numeric column exists, the second and third KPIs
are the first numeric column's total and its mean rounded to two decimal
places, and both carry format `currency` exactly when the column's name
contains (case-insensitively) one of `price`, `cost`, `revenue`, `sales`,
and format `number` otherwise. -/
theorem kpi_currency_format (o : Pandas) (d : Dataset) (main : String)
    (rest : List String) (h : numericColsOf d = main :: rest) :
    (generateKpis d (numericColsOf d) (categoricalColsOf o d) (dateColsOf o d))[1]? =
      some ⟨"main_metric", "Total " ++ main, .num (d.getCol main).sumVals,
        kpiFormat main, "trending-up", "green"⟩ ∧
    (generateKpis d (numericColsOf d) (categoricalColsOf o d) (dateColsOf o d))[2]? =
      some ⟨"avg_metric", "Average " ++ main, .num (pyRound2 (d.getCol main).meanVals),
        kpiFormat main, "bar-chart", "purple"⟩ ∧
    (kpiFormat main = "currency" ↔ currencyName main = true) ∧
    (currencyName main = false → kpiFormat main = "number") := by
  refine ⟨?_, ?_, ?_, ?_⟩
  · rcases hc : categoricalColsOf o d with _ | ⟨mc, crest⟩ <;> simp [generateKpis, h, hc]
  · rcases hc : categoricalColsOf o d with _ | ⟨mc, crest⟩ <;> simp [generateKpis, h, hc]
  · cases hcn : currencyName main <;> simp [kpiFormat, hcn]
  · intro hcn
    simp [kpiFormat, hcn]

/-- C6, witness: a `price` column triggers currency format; the concrete
second KPI of a two-numeric-column DataFrame. -/
theorem kpi_currency_format_witness :
    (numericColsOf dPrice = "price" :: ["quantity"] ∧ currencyName "price" = true ∧
      currencyName "quantity" = false) ∧
    ((kpiFormat "price" = "currency" ↔ currencyName "price" = true) ∧
      (generateKpis dPrice (numericColsOf dPrice) (categoricalColsOf noParse dPrice)
          (dateColsOf noParse dPrice))[1]? =
        some ⟨"main_metric", "Total " ++ "price", .num (dPrice.getCol "price").sumVals,
          kpiFormat "price", "trending-up", "green"⟩) :=
  ⟨⟨by decide, by decide, by decide⟩,
    ⟨(kpi_currency_format noParse dPrice "price" ["quantity"] (by decide)).2.2.1,
      (kpi_currency_format noParse dPrice "price" ["quantity"] (by decide)).1⟩⟩

/-! ## C7 -/

/-- Full characterization of the multiselect filters `_generate_filters`
emits: one per column among the first 3 categorical columns whose distinct
non-null count is at most 50, with the source's id, label, sorted options
and empty default; the numeric-range and date-range sections never emit a
multiselect. -/
theorem multiselect_mem_generateFilters (o : Pandas) (d : Dataset)
    (ncols ccols dcols : List String) (pid c plabel : String)
    (opts : List (Value × String)) (dflt : List Value) :
    FilterWidget.multiselect pid c plabel opts dflt ∈
        generateFilters o d ncols ccols dcols ↔
      (c ∈ ccols.take 3 ∧ (d.getCol c).distinctNonNull.length ≤ 50 ∧
        pid = "filter_" ++ c ∧ plabel = "Filter by " ++ c ∧
        opts = (sortVals (d.getCol c).distinctNonNull).map (fun v => (v, v.strOf)) ∧
        dflt = []) := by
  unfold generateFilters
  constructor
  · intro hm
    rcases List.mem_append.1 hm with hm' | hmC
    · rcases List.mem_append.1 hm' with hmA | hmB
      · rcases List.mem_filterMap.1 hmA with ⟨col, hcol, heq⟩
        by_cases h50 : (d.getCol col).distinctNonNull.length ≤ 50
        · rw [if_pos h50] at heq
          have hfields := Option.some.inj heq
          simp only [FilterWidget.multiselect.injEq] at hfields
          obtain ⟨h1, h2, h3, h4, h5⟩ := hfields
          subst h2
          exact ⟨hcol, h50, h1.symm, h3.symm, h4.symm, h5.symm⟩
        · rw [if_neg h50] at heq
          exact Option.noConfusion heq
      · rcases List.mem_map.1 hmB with ⟨col, hcol, heq⟩
        simp at heq
    · rcases List.mem_filterMap.1 hmC with ⟨col, hcol, heq⟩
      rcases hfm : (d.getCol col).values.filterMap (coerceDate o) with _ | ⟨t, ts⟩ <;>
        rw [hfm] at heq
      · exact Option.noConfusion heq
      · simp at heq
  · rintro ⟨hc3, h50, hpid, hplabel, hopts, hdflt⟩
    subst hpid
    subst hplabel
    subst hopts
    subst hdflt
    exact List.mem_append.2 (Or.inl (List.mem_append.2 (Or.inl
      (List.mem_filterMap.2 ⟨c, hc3, by rw [if_pos h50]⟩))))

/-- C7: `_generate_filters` emits a multiselect filter bound to a
categorical column iff the column is among the first 3 categorical columns
and its distinct non-null value count is at most 50; and every emitted
multiselect filter's options are exactly the sorted distinct non-null
values (labelled by their string rendering). -/
theorem filters_multiselect_iff (o : Pandas) (d : Dataset)
    (ncols ccols dcols : List String) (c : String) :
    ((∃ pid plabel opts dflt,
        FilterWidget.multiselect pid c plabel opts dflt ∈
          generateFilters o d ncols ccols dcols) ↔
      (c ∈ ccols.take 3 ∧ (d.getCol c).distinctNonNull.length ≤ 50)) ∧
    (∀ pid plabel opts dflt,
      FilterWidget.multiselect pid c plabel opts dflt ∈
          generateFilters o d ncols ccols dcols →
        opts = (sortVals (d.getCol c).distinctNonNull).map (fun v => (v, v.strOf))) := by
  refine ⟨⟨?_, ?_⟩, ?_⟩
  · rintro ⟨pid, plabel, opts, dflt, hm⟩
    have hh := (multiselect_mem_generateFilters o d ncols ccols dcols pid c plabel
      opts dflt).1 hm
    exact ⟨hh.1, hh.2.1⟩
  · rintro ⟨hc3, h50⟩
    exact ⟨_, _, _, _, (multiselect_mem_generateFilters o d ncols ccols dcols
      ("filter_" ++ c) c ("Filter by " ++ c)
      ((sortVals (d.getCol c).distinctNonNull).map (fun v => (v, v.strOf))) []).2
      ⟨hc3, h50, rfl, rfl, rfl, rfl⟩⟩
  · intro pid plabel opts dflt hm
    exact ((multiselect_mem_generateFilters o d ncols ccols dcols pid c plabel
      opts dflt).1 hm).2.2.2.2.1

/-- C7, witness: on the two-column DataFrame the text column `g` (2
distinct values) yields a multiselect filter with the sorted options. -/
theorem filters_multiselect_iff_witness :
    (FilterWidget.multiselect "filter_g" "g" "Filter by g"
        [(Value.str "a", "a"), (Value.str "b", "b")] [] ∈
      generateFilters noParse dMix ["n"] ["g"] []) ∧
    ("g" ∈ (["g"] : List String).take 3 ∧
      (dMix.getCol "g").distinctNonNull.length ≤ 50) :=
  ⟨by decide,
    (filters_multiselect_iff noParse dMix ["n"] ["g"] [] "g").1.1
      ⟨"filter_g", "Filter by g", [(Value.str "a", "a"), (Value.str "b", "b")], [],
        by decide⟩⟩

/-! ## C8 -/

/-- C8: dashboard assembly is deterministic.  On the same immutable
DataFrame (and the same external environment), two runs of
`create_full_dashboard` produce the same KPI list, attempt the same chart
candidates, and return the same payload — the selection logic contains no
randomness. -/
theorem dashboard_deterministic (o : Pandas) (throws : String → Bool)
    (exc : Option String) (d d' : Dataset) (h : d = d') :
    generateKpis d (numericColsOf d) (categoricalColsOf o d) (dateColsOf o d) =
      generateKpis d' (numericColsOf d') (categoricalColsOf o d') (dateColsOf o d') ∧
    attemptedCandidates o d = attemptedCandidates o d' ∧
    createFullDashboard o throws exc d = createFullDashboard o throws exc d' := by
  subst h
  exact ⟨rfl, rfl, rfl⟩

/-- C8, witness: two runs on the concrete two-column DataFrame. -/
theorem dashboard_deterministic_witness :
    (dMix = dMix) ∧
    attemptedCandidates noParse dMix = attemptedCandidates noParse dMix :=
  ⟨rfl, (dashboard_deterministic noParse (fun _ => false) none dMix dMix rfl).2.1⟩

/-! ## C9 -/

/-- C9: when the summary sub-step of `create_full_dashboard` fails, the
returned error payload has empty kpis, charts and filters, an empty
summary and an `error` field, and — unlike the success payload, which
always carries `metadata` — it has no `metadata` key, so the `main.py`
caller's `dashboard_data["metadata"]` lookup fails on it. -/
theorem error_payload_omits_metadata (o : Pandas) (throws : String → Bool)
    (d : Dataset) (e : String) :
    createFullDashboard o throws (some e) d =
      [("kpis", .kpis []), ("charts", .charts []), ("filters", .filters []),
       ("summary", .summary []), ("error", .err e)] ∧
    indexMetadata (createFullDashboard o throws (some e) d) = none ∧
    (createFullDashboard o throws (some e) d).lookup "error" = some (.err e) ∧
    (∀ d' : Dataset,
      indexMetadata (createFullDashboard o throws none d') =
        some (.metadata d'.nrows d'.cols.length (numericColsOf d').length
          (categoricalColsOf o d').length (dateColsOf o d').length)) := by
  refine ⟨rfl, rfl, rfl, ?_⟩
  intro d'
  rfl
